import Mathlib

/-!
Verification of the 16-digit barcode gate controller (`main.py`).

The program keeps its "used codes" record as a filesystem tree rooted at
`BARCODE_DIR`: a directory `BARCODE_DIR/<site>` means the site is
provisioned, and an empty file `BARCODE_DIR/<site>/<registry>/<date>/<serial>.txt`
means that exact code has been consumed.  The shallow embedding below
represents exactly the parts of that state the program reads or writes:
the set of site directories, the set of marker files, and whether
filesystem writes currently succeed (an `OSError` inside
`create_barcode_file` is modelled by `writeOk = false`, in which case the
store is left unchanged and `false` is returned, matching the
`except OSError` handler).

Decisions are booleans exactly as in the source: `true` is Granted
(the server replies "open", the client opens the gate), `false` is Denied.
-/

/-- Python slicing `s[a:b]` on strings (drop `a` characters, keep the next
`b - a`).  Out-of-range bounds truncate, as in Python. -/
def pySlice (s : String) (a b : Nat) : String :=
  String.mk ((s.data.drop a).take (b - a))

/-- Python `int()` as used by `is_valid_date`, modelled on the character
set this system's inputs range over: the scanner emits only the digits
'0'-'9' (see `KEYCODE_MAP`) and the wire protocol carries those strings.
A non-empty all-digit string parses to its decimal value; anything else
(in particular the empty string) raises `ValueError` in the source and is
`none` here.  Exotic forms CPython would also accept (signs, surrounding
whitespace, underscores, non-ASCII digits) do not occur in this system
and are out of scope of the model. -/
def toNatDigits? (s : String) : Option Nat :=
  if s.data ≠ [] ∧ s.data.all (fun ch => ch.isDigit) then
    some (s.data.foldl (fun n ch => 10 * n + (ch.toNat - 48)) 0)
  else none

/-- `VALID_YEAR_RANGE = (23, 50)` from the source configuration. -/
def VALID_YEAR_RANGE : Nat × Nat := (23, 50)

/-- `is_valid_date` from the source: parse `date_str[0:2]`, `[2:4]`, `[4:6]`
as day, month, year and require day in 1..31, month in 1..12, year within
`VALID_YEAR_RANGE`; a parse failure (`ValueError`) yields `False`. -/
def is_valid_date (date_str : String) : Bool :=
  match toNatDigits? (pySlice date_str 0 2), toNatDigits? (pySlice date_str 2 4),
        toNatDigits? (pySlice date_str 4 6) with
  | some day, some month, some year =>
      decide (1 ≤ day ∧ day ≤ 31 ∧ 1 ≤ month ∧ month ≤ 12 ∧
              VALID_YEAR_RANGE.1 ≤ year ∧ year ≤ VALID_YEAR_RANGE.2)
  | _, _, _ => false

/-- A consumed-code marker: the file
`BARCODE_DIR/<site>/<registry>/<date>/<serial>.txt`. -/
structure Marker where
  site : String
  registry : String
  date : String
  serial : String
deriving DecidableEq, Repr

/-- The filesystem state under `BARCODE_DIR`, projected to what the
program reads and writes: which site directories exist, which marker
files exist, and whether writes succeed (`writeOk = false` models an
`OSError` raised inside `create_barcode_file`). -/
structure Store where
  sites : List String
  markers : List Marker
  writeOk : Bool
deriving DecidableEq, Repr

/-- `create_barcode_file(date, site, registry, code)` from the source:
`os.makedirs(BARCODE_DIR/site/registry/date, exist_ok=True)` followed by
creating the empty file `code.txt` there, returning `True`; on `OSError`
it returns `False`.  `makedirs` also creates the `site` directory, so a
successful call provisions the site.  Creating an already existing
(empty) file or directory changes nothing, hence the membership guards. -/
def create_barcode_file (date site registry code : String) (st : Store) :
    Bool × Store :=
  if st.writeOk then
    (true,
     ⟨if site ∈ st.sites then st.sites else site :: st.sites,
      if (⟨site, registry, date, code⟩ : Marker) ∈ st.markers then st.markers
      else (⟨site, registry, date, code⟩ : Marker) :: st.markers,
      st.writeOk⟩)
  else (false, st)

/-- `process_barcode_locally(barcode, config_button_is_pressed)` from the
source, with the filesystem passed explicitly.  The decomposition is
`date = barcode[0:6]`, `site = barcode[6:10]`, `registry = barcode[10:12]`,
`code = barcode[12:16]`; the checks appear in exactly the source's order. -/
def process_barcode_locally (barcode : String) (config_button_is_pressed : Bool)
    (st : Store) : Bool × Store :=
  if barcode.length ≠ 16 then (false, st)
  else if barcode = "123456" ++ pySlice barcode 6 10 ++ "123456" ∧
          pySlice barcode 6 10 ∈ st.sites then (true, st)
  else if config_button_is_pressed then
    create_barcode_file (pySlice barcode 0 6) (pySlice barcode 6 10)
      (pySlice barcode 10 12) (pySlice barcode 12 16) st
  else if ¬ (is_valid_date (pySlice barcode 0 6) = true) then (false, st)
  else if ¬ (pySlice barcode 6 10 ∈ st.sites) then (false, st)
  else if (⟨pySlice barcode 6 10, pySlice barcode 10 12, pySlice barcode 0 6,
            pySlice barcode 12 16⟩ : Marker) ∈ st.markers then (false, st)
  else
    create_barcode_file (pySlice barcode 0 6) (pySlice barcode 6 10)
      (pySlice barcode 10 12) (pySlice barcode 12 16) st

/-- `FILES_TO_KEEP` from the source configuration: the allow-list spared
by the wipe. -/
def FILES_TO_KEEP : List String :=
  ["sounds", "main.py", "install.sh", "requirements.txt", "cron.log",
   "install guide bracode.txt"]

/-- A direct entry under `BARCODE_DIR` as seen by `delete_database`:
its name, whether it is a directory, its (opaque) contents, and whether
deleting it succeeds (`deletable = false` models the `OSError` caught per
item). -/
structure FsEntry where
  name : String
  isDir : Bool
  contents : List String
  deletable : Bool
deriving DecidableEq, Repr

/-- `delete_database` from the source (identical in `Server` and
`Client`): iterate over the direct entries of `BARCODE_DIR`; keep those
named in `FILES_TO_KEEP`; otherwise `shutil.rmtree` a directory or
`os.remove` a file, and on `OSError` report and continue with the rest. -/
def delete_database : List FsEntry → List FsEntry
  | [] => []
  | e :: rest =>
      if e.name ∈ FILES_TO_KEEP then e :: delete_database rest
      else if e.isDir then
        (if e.deletable then delete_database rest else e :: delete_database rest)
      else
        (if e.deletable then delete_database rest else e :: delete_database rest)

/-- Python `str.split(':')`, reimplemented faithfully: splitting never
yields the empty list, and `"".split(':') = [""]`. -/
def splitColonAux : List Char → List Char → List String
  | [], acc => [String.mk acc.reverse]
  | c :: cs, acc =>
      if c = ':' then String.mk acc.reverse :: splitColonAux cs []
      else splitColonAux cs (c :: acc)

/-- `message.split(':')` on a whole string. -/
def splitColon (s : String) : List String :=
  splitColonAux s.data []

/-- The effect of `delete_database` on the validation store projection:
site directories (and the markers beneath them) survive only if the site
directory name happens to be on the allow-list. -/
def storeWipe (st : Store) : Store :=
  ⟨st.sites.filter (fun s => decide (s ∈ FILES_TO_KEEP)),
   st.markers.filter (fun m => decide (m.site ∈ FILES_TO_KEEP)),
   st.writeOk⟩

/-- `BarcodeTCPHandler.handle` from the source, on the received message
after `strip()` and UTF-8 decoding: an empty message gets no reply; the
sentinel `"DELETE_DATABASE"` triggers the wipe and is answered `"done"`;
every other message is split on ':', `parts[0]` is the barcode,
the override flag is true exactly when there is a second part equal to
`"True"`, and the engine's decision is answered `"open"` or `"close"`. -/
def handle (msg : String) (st : Store) : Option String × Store :=
  if msg = "" then (none, st)
  else if msg = "DELETE_DATABASE" then (some "done", storeWipe st)
  else
    match splitColon msg with
    | [] => (none, st)
    | b :: rest =>
        match rest with
        | [] =>
            (some (if (process_barcode_locally b false st).1 then "open"
              else "close"),
             (process_barcode_locally b false st).2)
        | p :: _ =>
            (some (if (process_barcode_locally b (decide (p = "True")) st).1
              then "open" else "close"),
             (process_barcode_locally b (decide (p = "True")) st).2)

/-- How one client request interacts with the network, as seen from
`Client.process_barcode`: either the connection fails outright
(`noConnect`: the `socket.error` fires before the request reaches the
server), or the round trip completes (`ok`), or the connect and send
succeed and the server processes the request but the reply is lost
(`failAfterProcessed`: a timeout or reset at `recv`, which the same
`except socket.error` handler catches). -/
inductive NetBehavior where
  | noConnect
  | ok
  | failAfterProcessed
deriving DecidableEq, Repr

/-- The observable outcome of `Client.process_barcode`: the decision
(gate opened and grant sound, versus deny beep), the client-side and
server-side stores afterwards, and which of the two validation paths
actually ran. -/
structure ClientOutcome where
  decision : Bool
  localStore : Store
  serverStore : Store
  localRan : Bool
  serverRan : Bool
deriving DecidableEq, Repr

/-- `Client.process_barcode` from the source: try the server with a 250ms
timeout and obey its `"open"`/`"close"` reply; on `socket.error` fall back
to `process_barcode_locally` on the local store.  The server, when it
processes the request, runs the same engine on its own store
(`BarcodeTCPHandler.handle`). -/
def client_process_barcode (nb : NetBehavior) (barcode : String) (ov : Bool)
    (lst sst : Store) : ClientOutcome :=
  match nb with
  | NetBehavior.noConnect =>
      ⟨(process_barcode_locally barcode ov lst).1,
       (process_barcode_locally barcode ov lst).2, sst, true, false⟩
  | NetBehavior.ok =>
      ⟨(if (process_barcode_locally barcode ov sst).1 then "open" else "close")
         = "open",
       lst, (process_barcode_locally barcode ov sst).2, false, true⟩
  | NetBehavior.failAfterProcessed =>
      ⟨(process_barcode_locally barcode ov lst).1,
       (process_barcode_locally barcode ov lst).2,
       (process_barcode_locally barcode ov sst).2, true, true⟩

/-- The override-hold bookkeeping of `Client.start`:
`button_held_start_time` and `db_deleted_this_hold`. -/
structure OverrideState where
  holdStart : Option Nat
  wiped : Bool
deriving DecidableEq, Repr

/-- One iteration of the config-button block in `Client.start`'s main
loop, at wall-clock time `now` (seconds) with the button level `pressed`.
Returns the new state and whether the wipe fired on this tick.  Mirrors
the source: on a press with no recorded start, record `now` and clear the
per-hold flag; fire when the hold duration reaches 10 seconds and the
flag is clear; on release, forget the start time. -/
def override_step (now : Nat) (pressed : Bool) (s : OverrideState) :
    OverrideState × Bool :=
  if pressed then
    match s.holdStart with
    | none =>
        if 10 ≤ now - now ∧ false = false then (⟨some now, true⟩, true)
        else (⟨some now, false⟩, false)
    | some t0 =>
        if 10 ≤ now - t0 ∧ s.wiped = false then (⟨some t0, true⟩, true)
        else (⟨some t0, s.wiped⟩, false)
  else (⟨none, s.wiped⟩, false)

/-- Run the loop over a list of sampled `(time, pressed)` ticks, counting
how many times the wipe fired. -/
def override_run : OverrideState → List (Nat × Bool) → Nat × OverrideState
  | s, [] => (0, s)
  | s, e :: rest =>
      ((if (override_step e.1 e.2 s).2 then 1 else 0)
         + (override_run (override_step e.1 e.2 s).1 rest).1,
       (override_run (override_step e.1 e.2 s).1 rest).2)

/-- A run of consecutive ticks on which the button is held. -/
def pressedBlock (ts : List Nat) : List (Nat × Bool) :=
  ts.map (fun t => (t, true))

/-- `KEYCODE_MAP` from the source: USB HID keycodes for the digit keys. -/
def KEYCODE_MAP (k : Nat) : Option Char :=
  if k = 30 then some '1' else if k = 31 then some '2'
  else if k = 32 then some '3' else if k = 33 then some '4'
  else if k = 34 then some '5' else if k = 35 then some '6'
  else if k = 36 then some '7' else if k = 37 then some '8'
  else if k = 38 then some '9' else if k = 39 then some '0'
  else none

/-- The reader loop's mutable state in `reader_process`: the pending
character buffer, `scan_timeout_start`, and the debouncing pair
`last_barcode_read` / `last_read_time`.  Times are in milliseconds. -/
structure ReaderState where
  chars : List Char
  sts : Option Nat
  lastBarcode : Option String
  lastReadTime : Nat
deriving DecidableEq, Repr

/-- One observable event of the reader loop: a key report with a nonzero
keycode at a given time, or a `USBTimeoutError` from the 1-second read. -/
inductive ReaderEvent where
  | key (keycode : Nat) (now : Nat)
  | timeout (now : Nat)
deriving DecidableEq, Repr

/-- One iteration of `reader_process`'s loop body, returning the new
state and the barcode emitted to the queue, if any.  Mirrors the source:
on any valid key report `scan_timeout_start` is first set to `None`;
Enter (keycode 40) flushes a non-empty buffer subject to the 0.5-second
duplicate filter; a digit key re-arms `scan_timeout_start` only when the
buffer was empty, appends, and discards buffers longer than 50; a read
timeout discards the buffer only when `scan_timeout_start` is set and
more than 3 seconds old. -/
def reader_step (s : ReaderState) (e : ReaderEvent) :
    ReaderState × Option String :=
  match e with
  | ReaderEvent.key kc now =>
      if kc = 40 then
        match s.chars with
        | [] => (⟨[], none, s.lastBarcode, s.lastReadTime⟩, none)
        | c :: cs =>
            if ¬ (some (String.mk (c :: cs)) = s.lastBarcode ∧
                  now - s.lastReadTime < 500) then
              (⟨[], none, some (String.mk (c :: cs)), now⟩,
               some (String.mk (c :: cs)))
            else (⟨[], none, s.lastBarcode, s.lastReadTime⟩, none)
      else
        match KEYCODE_MAP kc with
        | some ch =>
            if (s.chars ++ [ch]).length > 50 then
              (⟨[], none, s.lastBarcode, s.lastReadTime⟩, none)
            else
              (⟨s.chars ++ [ch],
                if s.chars.isEmpty then some now else none,
                s.lastBarcode, s.lastReadTime⟩, none)
        | none => (⟨s.chars, none, s.lastBarcode, s.lastReadTime⟩, none)
  | ReaderEvent.timeout now =>
      match s.sts with
      | some t0 =>
          if s.chars ≠ [] ∧ now - t0 > 3000 then
            (⟨[], none, s.lastBarcode, s.lastReadTime⟩, none)
          else (s, none)
      | none => (s, none)

/-! ### String helper lemmas -/

lemma strData_append (s t : String) : (s ++ t).data = s.data ++ t.data := by
  cases s; cases t; rfl

lemma strLength_data (s : String) : s.length = s.data.length := by
  cases s; rfl

lemma mk_data (s : String) : String.mk s.data = s := rfl

lemma pySlice_master_date (X : String) :
    pySlice ("123456" ++ X ++ "123456") 0 6 = "123456" := by
  show String.mk (((("123456" ++ X ++ "123456").data).drop 0).take 6) = "123456"
  rw [strData_append, strData_append, List.append_assoc, List.drop_zero,
    List.take_left' (show ("123456".data).length = 6 from rfl)]

lemma pySlice_master_site (X : String) (h4 : X.data.length = 4) :
    pySlice ("123456" ++ X ++ "123456") 6 10 = X := by
  show String.mk (((("123456" ++ X ++ "123456").data).drop 6).take 4) = X
  rw [strData_append, strData_append, List.append_assoc,
    List.drop_left' (show ("123456".data).length = 6 from rfl),
    List.take_left' h4]

lemma master_length (X : String) :
    ("123456" ++ X ++ "123456").length = X.length + 12 := by
  rw [strLength_data, strData_append, strData_append, List.length_append,
    List.length_append, strLength_data]
  simp [String.data]
  omega

lemma pySlice_concat4 (d s r c : String) (hd : d.data.length = 6)
    (hs : s.data.length = 4) (hr : r.data.length = 2) (hc : c.data.length = 4) :
    pySlice (d ++ s ++ r ++ c) 0 6 = d ∧
    pySlice (d ++ s ++ r ++ c) 6 10 = s ∧
    pySlice (d ++ s ++ r ++ c) 10 12 = r ∧
    pySlice (d ++ s ++ r ++ c) 12 16 = c ∧
    (d ++ s ++ r ++ c).length = 16 := by
  have hdata : (d ++ s ++ r ++ c).data
      = ((d.data ++ s.data) ++ r.data) ++ c.data := by
    rw [strData_append, strData_append, strData_append]
  refine ⟨?_, ?_, ?_, ?_, ?_⟩
  · show String.mk ((((d ++ s ++ r ++ c).data).drop 0).take 6) = d
    rw [hdata, List.drop_zero, List.append_assoc, List.append_assoc,
      List.take_left' hd]
  · show String.mk ((((d ++ s ++ r ++ c).data).drop 6).take 4) = s
    rw [hdata, List.append_assoc, List.append_assoc, List.drop_left' hd,
      List.take_left' hs]
  · show String.mk ((((d ++ s ++ r ++ c).data).drop 10).take 2) = r
    rw [hdata, List.append_assoc,
      List.drop_left' (show (d.data ++ s.data).length = 10 by
        rw [List.length_append, hd, hs]),
      List.take_left' hr]
  · show String.mk ((((d ++ s ++ r ++ c).data).drop 12).take 4) = c
    rw [hdata,
      List.drop_left' (show ((d.data ++ s.data) ++ r.data).length = 12 by
        rw [List.length_append, List.length_append, hd, hs, hr]),
      ← hc, List.take_length]
  · rw [strLength_data, hdata, List.length_append, List.length_append,
      List.length_append, hd, hs, hr, hc]

/-! ### Helper lemmas about the store primitives -/

lemma create_fst (d s r c : String) (st : Store) :
    (create_barcode_file d s r c st).1 = st.writeOk := by
  unfold create_barcode_file
  cases h : st.writeOk <;> simp [h]

lemma create_fail (d s r c : String) (st : Store) (hw : st.writeOk = false) :
    create_barcode_file d s r c st = (false, st) := by
  unfold create_barcode_file
  rw [hw]
  rfl

lemma create_writeOk (d s r c : String) (st : Store) :
    (create_barcode_file d s r c st).2.writeOk = st.writeOk := by
  unfold create_barcode_file
  cases h : st.writeOk <;> simp [h]

lemma create_mem_marker (d s r c : String) (st : Store) (hw : st.writeOk = true) :
    (⟨s, r, d, c⟩ : Marker) ∈ (create_barcode_file d s r c st).2.markers := by
  unfold create_barcode_file
  rw [hw]
  by_cases hmem : (⟨s, r, d, c⟩ : Marker) ∈ st.markers <;> simp [hmem]

lemma create_mem_site (d s r c : String) (st : Store) (hw : st.writeOk = true) :
    s ∈ (create_barcode_file d s r c st).2.sites := by
  unfold create_barcode_file
  rw [hw]
  by_cases hmem : s ∈ st.sites <;> simp [hmem]

lemma create_site_mono (d s r c x : String) (st : Store) (hx : x ∈ st.sites) :
    x ∈ (create_barcode_file d s r c st).2.sites := by
  unfold create_barcode_file
  cases h : st.writeOk
  · exact hx
  · by_cases hmem : s ∈ st.sites <;> simp [hmem, hx]

lemma master_ne_of_valid_date (code : String)
    (hv : is_valid_date (pySlice code 0 6) = true) :
    code ≠ "123456" ++ pySlice code 6 10 ++ "123456" := by
  intro heq
  have h06 : pySlice code 0 6 = "123456" := by
    conv_lhs => rw [heq]
    exact pySlice_master_date _
  rw [h06] at hv
  exact absurd hv (by decide)

/-- C4: for every provisioned 4-character site S, the master code
"123456" ++ S ++ "123456" is granted for any override level and any store
contents, and the store is returned unchanged (no marker, no mutation). -/
theorem C4_master_code (S : String) (ov : Bool) (st : Store)
    (h4 : S.length = 4) (hin : S ∈ st.sites) :
    process_barcode_locally ("123456" ++ S ++ "123456") ov st = (true, st) := by
  have h4' : S.data.length = 4 := by rw [← strLength_data]; exact h4
  have hsite := pySlice_master_site S h4'
  have hlen : ("123456" ++ S ++ "123456").length = 16 := by
    rw [master_length, h4]
  unfold process_barcode_locally
  rw [if_neg (fun hne => hne hlen), hsite, if_pos ⟨rfl, hin⟩]

/-- C4 witness: the master code for the concrete provisioned site "ABCD". -/
theorem C4_witness :
    process_barcode_locally "123456ABCD123456" false ⟨["ABCD"], [], true⟩
      = (true, ⟨["ABCD"], [], true⟩) := by
  have h := C4_master_code "ABCD" false ⟨["ABCD"], [], true⟩ (by decide)
    (by decide)
  have heq : ("123456" ++ "ABCD" ++ "123456") = "123456ABCD123456" := by decide
  rw [heq] at h
  exact h

/-- C3 (amended): for every 16-character code on which the master-code
check does not fire, evaluating with overrideActive = true runs exactly
the marker-recording primitive: the decision equals the recording's
success (Granted when the write succeeds, Denied when it fails), it is
taken regardless of date validity or prior consumption, and on success
the marker is present afterwards. -/
theorem C3_override_bypass (code : String) (st : Store)
    (h16 : code.length = 16)
    (hm : ¬(code = "123456" ++ pySlice code 6 10 ++ "123456" ∧
            pySlice code 6 10 ∈ st.sites)) :
    process_barcode_locally code true st
      = create_barcode_file (pySlice code 0 6) (pySlice code 6 10)
          (pySlice code 10 12) (pySlice code 12 16) st ∧
    (process_barcode_locally code true st).1 = st.writeOk ∧
    (st.writeOk = true →
      (⟨pySlice code 6 10, pySlice code 10 12, pySlice code 0 6,
        pySlice code 12 16⟩ : Marker)
        ∈ (process_barcode_locally code true st).2.markers) := by
  have hstep : process_barcode_locally code true st
      = create_barcode_file (pySlice code 0 6) (pySlice code 6 10)
          (pySlice code 10 12) (pySlice code 12 16) st := by
    unfold process_barcode_locally
    rw [if_neg (fun hne => hne h16), if_neg hm, if_pos rfl]
  refine ⟨hstep, ?_, ?_⟩
  · rw [hstep]
    exact create_fst _ _ _ _ _
  · intro hw
    rw [hstep]
    exact create_mem_marker _ _ _ _ _ hw

/-- C3 witness: a fresh override scan on a working store records the
marker and is granted. -/
theorem C3_witness :
    process_barcode_locally "0101250001AB1234" true ⟨[], [], true⟩
      = create_barcode_file (pySlice "0101250001AB1234" 0 6)
          (pySlice "0101250001AB1234" 6 10)
          (pySlice "0101250001AB1234" 10 12)
          (pySlice "0101250001AB1234" 12 16) ⟨[], [], true⟩ :=
  (C3_override_bypass "0101250001AB1234" ⟨[], [], true⟩ (by decide)
    (by decide)).1

/-- C3 counterexample to the claim as stated: with overrideActive = true,
a storage failure (writeOk = false) makes the decision Denied — the grant
is revoked, contradicting "the decision is still Granted"; and for a
master code of a provisioned site the override path is never reached, so
no marker recording is attempted at all (the store, with writeOk = true,
is returned unchanged). -/
theorem C3_counterexample :
    (process_barcode_locally "0101250001AB1234" true
        ⟨["0001"], [], false⟩).1 = false ∧
    process_barcode_locally "123456SITE123456" true ⟨["SITE"], [], true⟩
      = (true, ⟨["SITE"], [], true⟩) := by
  decide

/-- C10: an override scan whose site is not yet provisioned is granted
(when the filesystem write succeeds), and as a side effect of
`create_barcode_file`'s `os.makedirs` the site directory is created —
the site is now provisioned, i.e. it passes the site-provisioned
membership check used by subsequent non-override evaluations — and the
serial marker file exists. -/
theorem C10_override_provisions (code : String) (st : Store)
    (h16 : code.length = 16) (hsite : pySlice code 6 10 ∉ st.sites)
    (hw : st.writeOk = true) :
    (process_barcode_locally code true st).1 = true ∧
    pySlice code 6 10 ∈ (process_barcode_locally code true st).2.sites ∧
    (⟨pySlice code 6 10, pySlice code 10 12, pySlice code 0 6,
      pySlice code 12 16⟩ : Marker)
      ∈ (process_barcode_locally code true st).2.markers := by
  have hstep : process_barcode_locally code true st
      = create_barcode_file (pySlice code 0 6) (pySlice code 6 10)
          (pySlice code 10 12) (pySlice code 12 16) st := by
    unfold process_barcode_locally
    rw [if_neg (fun hne => hne h16), if_neg (fun h => hsite h.2), if_pos rfl]
  refine ⟨?_, ?_, ?_⟩
  · rw [hstep, create_fst, hw]
  · rw [hstep]
    exact create_mem_site _ _ _ _ _ hw
  · rw [hstep]
    exact create_mem_marker _ _ _ _ _ hw

/-- C10 witness: an override scan for the unknown site "NEWS" provisions
it. -/
theorem C10_witness :
    (process_barcode_locally "010125NEWSAB1234" true ⟨[], [], true⟩).1
      = true ∧
    pySlice "010125NEWSAB1234" 6 10
      ∈ (process_barcode_locally "010125NEWSAB1234" true
          ⟨[], [], true⟩).2.sites ∧
    (⟨pySlice "010125NEWSAB1234" 6 10, pySlice "010125NEWSAB1234" 10 12,
      pySlice "010125NEWSAB1234" 0 6,
      pySlice "010125NEWSAB1234" 12 16⟩ : Marker)
      ∈ (process_barcode_locally "010125NEWSAB1234" true
          ⟨[], [], true⟩).2.markers :=
  C10_override_provisions "010125NEWSAB1234" ⟨[], [], true⟩ (by decide)
    (by decide) rfl

/-- C1 (amended): replay rejection.  First part: if the marker for
(site, registry, date, serial) exists, the site is provisioned, and the
corresponding code is not the site's master code, then evaluating it with
overrideActive = false is Denied and the store is unchanged.  Second
part: a first evaluation of a fresh code (valid date, provisioned site,
no existing marker, filesystem writes succeeding) is Granted and creates
the marker, and repeating the identical evaluation is then Denied with
the store unchanged. -/
theorem C1_replay_rejection :
    (∀ (d s r c : String) (st : Store),
      d.length = 6 → s.length = 4 → r.length = 2 → c.length = 4 →
      (⟨s, r, d, c⟩ : Marker) ∈ st.markers → s ∈ st.sites →
      d ++ s ++ r ++ c ≠ "123456" ++ s ++ "123456" →
      process_barcode_locally (d ++ s ++ r ++ c) false st = (false, st)) ∧
    (∀ (code : String) (st : Store),
      code.length = 16 → st.writeOk = true →
      is_valid_date (pySlice code 0 6) = true →
      pySlice code 6 10 ∈ st.sites →
      (⟨pySlice code 6 10, pySlice code 10 12, pySlice code 0 6,
        pySlice code 12 16⟩ : Marker) ∉ st.markers →
      (process_barcode_locally code false st).1 = true ∧
      (⟨pySlice code 6 10, pySlice code 10 12, pySlice code 0 6,
        pySlice code 12 16⟩ : Marker)
        ∈ (process_barcode_locally code false st).2.markers ∧
      process_barcode_locally code false
          (process_barcode_locally code false st).2
        = (false, (process_barcode_locally code false st).2)) := by
  constructor
  · intro d s r c st hd hs hr hc hmem hsit hne
    obtain ⟨e0, e6, e10, e12, elen⟩ := pySlice_concat4 d s r c
      (by rw [← strLength_data]; exact hd) (by rw [← strLength_data]; exact hs)
      (by rw [← strLength_data]; exact hr) (by rw [← strLength_data]; exact hc)
    unfold process_barcode_locally
    rw [if_neg (fun h => h elen), e0, e6, e10, e12,
      if_neg (fun h => hne h.1), if_neg (by decide : ¬(false = true))]
    by_cases hv : is_valid_date d = true
    · rw [if_neg (not_not_intro hv), if_neg (not_not_intro hsit),
        if_pos hmem]
    · rw [if_pos hv]
  · intro code st h16 hw hv hsit hnm
    have hne := master_ne_of_valid_date code hv
    have hstep : process_barcode_locally code false st
        = create_barcode_file (pySlice code 0 6) (pySlice code 6 10)
            (pySlice code 10 12) (pySlice code 12 16) st := by
      unfold process_barcode_locally
      rw [if_neg (fun h => h h16), if_neg (fun h => hne h.1),
        if_neg (by decide : ¬(false = true)), if_neg (not_not_intro hv),
        if_neg (not_not_intro hsit), if_neg hnm]
    refine ⟨?_, ?_, ?_⟩
    · rw [hstep, create_fst, hw]
    · rw [hstep]
      exact create_mem_marker _ _ _ _ _ hw
    · have hmem2 : (⟨pySlice code 6 10, pySlice code 10 12, pySlice code 0 6,
          pySlice code 12 16⟩ : Marker)
          ∈ (process_barcode_locally code false st).2.markers := by
        rw [hstep]
        exact create_mem_marker _ _ _ _ _ hw
      have hsit2 : pySlice code 6 10
          ∈ (process_barcode_locally code false st).2.sites := by
        rw [hstep]
        exact create_site_mono _ _ _ _ _ _ hsit
      generalize hst2 : (process_barcode_locally code false st).2 = st2
      rw [hst2] at hmem2 hsit2
      unfold process_barcode_locally
      rw [if_neg (fun h => h h16), if_neg (fun h => hne h.1),
        if_neg (by decide : ¬(false = true)), if_neg (not_not_intro hv),
        if_neg (not_not_intro hsit2), if_pos hmem2]

/-- C1 witness: concrete replay denial for the marked code
"010125SITE121234", and a concrete fresh grant of the same code on a
store without the marker. -/
theorem C1_witness :
    process_barcode_locally ("010125" ++ "SITE" ++ "12" ++ "1234") false
        ⟨["SITE"], [⟨"SITE", "12", "010125", "1234"⟩], true⟩
      = (false, ⟨["SITE"], [⟨"SITE", "12", "010125", "1234"⟩], true⟩) ∧
    (process_barcode_locally "010125SITE121234" false
        ⟨["SITE"], [], true⟩).1 = true :=
  ⟨C1_replay_rejection.1 "010125" "SITE" "12" "1234"
      ⟨["SITE"], [⟨"SITE", "12", "010125", "1234"⟩], true⟩ (by decide)
      (by decide) (by decide) (by decide) (by decide) (by decide) (by decide),
   (C1_replay_rejection.2 "010125SITE121234" ⟨["SITE"], [], true⟩ (by decide)
      rfl (by decide) (by decide) (by decide)).1⟩

/-- C1 counterexample to the claim as stated.  First conjunct: the master
code "123456SITE123456" decomposes to (site "SITE", registry "12", date
"123456", serial "3456"); even with that exact marker present, the site
provisioned, and overrideActive = false, evaluation is Granted (the
master-code check precedes the replay check), not Denied.  Second
conjunct: a fresh code with valid date, provisioned site and no marker is
Denied, not Granted, when the marker write fails. -/
theorem C1_counterexample :
    (process_barcode_locally "123456SITE123456" false
        ⟨["SITE"], [⟨"SITE", "12", "123456", "3456"⟩], true⟩).1 = true ∧
    (process_barcode_locally "010125FARM120001" false
        ⟨["FARM"], [], false⟩).1 = false := by
  decide

/-- C2 (amended): the order of checks, first match winning, as the code
implements it.  (1) wrong length is Denied without touching storage;
(2) master code of a provisioned site is Granted with no mutation;
(3) override runs the marker-recording primitive and its success is the
decision — Granted on success, Denied on storage failure (not Granted
unconditionally as claimed); (4) implausible date is Denied; (5)
unprovisioned site is Denied; (6) existing marker is Denied; (7)
otherwise the marker is recorded, Granted on success and Denied on
storage failure. -/
theorem C2_order_of_checks (code : String) (ov : Bool) (st : Store) :
    (code.length ≠ 16 → process_barcode_locally code ov st = (false, st)) ∧
    (code.length = 16 →
      code = "123456" ++ pySlice code 6 10 ++ "123456" →
      pySlice code 6 10 ∈ st.sites →
      process_barcode_locally code ov st = (true, st)) ∧
    (code.length = 16 →
      ¬(code = "123456" ++ pySlice code 6 10 ++ "123456" ∧
        pySlice code 6 10 ∈ st.sites) →
      ov = true →
      process_barcode_locally code ov st
        = create_barcode_file (pySlice code 0 6) (pySlice code 6 10)
            (pySlice code 10 12) (pySlice code 12 16) st ∧
      (process_barcode_locally code ov st).1 = st.writeOk) ∧
    (code.length = 16 →
      ¬(code = "123456" ++ pySlice code 6 10 ++ "123456" ∧
        pySlice code 6 10 ∈ st.sites) →
      ov = false →
      is_valid_date (pySlice code 0 6) = false →
      process_barcode_locally code ov st = (false, st)) ∧
    (code.length = 16 →
      ¬(code = "123456" ++ pySlice code 6 10 ++ "123456" ∧
        pySlice code 6 10 ∈ st.sites) →
      ov = false →
      is_valid_date (pySlice code 0 6) = true →
      pySlice code 6 10 ∉ st.sites →
      process_barcode_locally code ov st = (false, st)) ∧
    (code.length = 16 →
      ¬(code = "123456" ++ pySlice code 6 10 ++ "123456" ∧
        pySlice code 6 10 ∈ st.sites) →
      ov = false →
      is_valid_date (pySlice code 0 6) = true →
      pySlice code 6 10 ∈ st.sites →
      (⟨pySlice code 6 10, pySlice code 10 12, pySlice code 0 6,
        pySlice code 12 16⟩ : Marker) ∈ st.markers →
      process_barcode_locally code ov st = (false, st)) ∧
    (code.length = 16 →
      ¬(code = "123456" ++ pySlice code 6 10 ++ "123456" ∧
        pySlice code 6 10 ∈ st.sites) →
      ov = false →
      is_valid_date (pySlice code 0 6) = true →
      pySlice code 6 10 ∈ st.sites →
      (⟨pySlice code 6 10, pySlice code 10 12, pySlice code 0 6,
        pySlice code 12 16⟩ : Marker) ∉ st.markers →
      process_barcode_locally code ov st
        = create_barcode_file (pySlice code 0 6) (pySlice code 6 10)
            (pySlice code 10 12) (pySlice code 12 16) st ∧
      (process_barcode_locally code ov st).1 = st.writeOk) := by
  refine ⟨?_, ?_, ?_, ?_, ?_, ?_, ?_⟩
  · intro hne
    unfold process_barcode_locally
    rw [if_pos hne]
  · intro h16 heq hsit
    unfold process_barcode_locally
    rw [if_neg (fun h => h h16), if_pos ⟨heq, hsit⟩]
  · intro h16 hm hov
    subst hov
    have hstep : process_barcode_locally code true st
        = create_barcode_file (pySlice code 0 6) (pySlice code 6 10)
            (pySlice code 10 12) (pySlice code 12 16) st := by
      unfold process_barcode_locally
      rw [if_neg (fun h => h h16), if_neg hm, if_pos rfl]
    exact ⟨hstep, by rw [hstep]; exact create_fst _ _ _ _ _⟩
  · intro h16 hm hov hv
    subst hov
    have hv' : ¬(is_valid_date (pySlice code 0 6) = true) := by
      rw [hv]; decide
    unfold process_barcode_locally
    rw [if_neg (fun h => h h16), if_neg hm,
      if_neg (by decide : ¬(false = true)), if_pos hv']
  · intro h16 hm hov hv hsit
    subst hov
    unfold process_barcode_locally
    rw [if_neg (fun h => h h16), if_neg hm,
      if_neg (by decide : ¬(false = true)), if_neg (not_not_intro hv),
      if_pos hsit]
  · intro h16 hm hov hv hsit hmem
    subst hov
    unfold process_barcode_locally
    rw [if_neg (fun h => h h16), if_neg hm,
      if_neg (by decide : ¬(false = true)), if_neg (not_not_intro hv),
      if_neg (not_not_intro hsit), if_pos hmem]
  · intro h16 hm hov hv hsit hnm
    subst hov
    have hstep : process_barcode_locally code false st
        = create_barcode_file (pySlice code 0 6) (pySlice code 6 10)
            (pySlice code 10 12) (pySlice code 12 16) st := by
      unfold process_barcode_locally
      rw [if_neg (fun h => h h16), if_neg hm,
        if_neg (by decide : ¬(false = true)), if_neg (not_not_intro hv),
        if_neg (not_not_intro hsit), if_neg hnm]
    exact ⟨hstep, by rw [hstep]; exact create_fst _ _ _ _ _⟩

/-- C2 witness: a 5-character input is Denied with the store untouched. -/
theorem C2_witness :
    process_barcode_locally "short" false ⟨[], [], true⟩
      = (false, ⟨[], [], true⟩) :=
  (C2_order_of_checks "short" false ⟨[], [], true⟩).1 (by decide)

/-- C2 counterexample to the claim as stated: its step (3) says
overrideActive yields Granted; on a store whose writes fail, the code
returns Denied from the override branch. -/
theorem C2_counterexample :
    (process_barcode_locally "010125CAFEAB1234" true ⟨[], [], false⟩).1
      = false := by
  decide

/-- C5 (amended): on any network failure the observed decision equals
running the engine locally on the local store (fallback transparency),
and when the failure happens before the server sees the request only the
local path runs; but a network failure after the server has processed the
request (a timeout or reset while awaiting the reply) makes the fallback
run as well, so the request is then handled by both paths. -/
theorem C5_fallback_transparency (nb : NetBehavior) (code : String)
    (ov : Bool) (lst sst : Store) (h : nb ≠ NetBehavior.ok) :
    (client_process_barcode nb code ov lst sst).decision
      = (process_barcode_locally code ov lst).1 ∧
    (client_process_barcode nb code ov lst sst).localStore
      = (process_barcode_locally code ov lst).2 ∧
    (client_process_barcode nb code ov lst sst).localRan = true ∧
    (nb = NetBehavior.noConnect →
      (client_process_barcode nb code ov lst sst).serverRan = false ∧
      (client_process_barcode nb code ov lst sst).serverStore = sst) ∧
    (nb = NetBehavior.failAfterProcessed →
      (client_process_barcode nb code ov lst sst).serverRan = true ∧
      (client_process_barcode nb code ov lst sst).serverStore
        = (process_barcode_locally code ov sst).2) := by
  cases nb
  · exact ⟨rfl, rfl, rfl, fun _ => ⟨rfl, rfl⟩,
      fun h2 => absurd h2 (by decide)⟩
  · exact absurd rfl h
  · exact ⟨rfl, rfl, rfl, fun h2 => absurd h2 (by decide),
      fun _ => ⟨rfl, rfl⟩⟩

/-- C5 witness: a concrete unreachable-server request is decided exactly
by the local engine. -/
theorem C5_witness :
    (client_process_barcode NetBehavior.noConnect "010125FARM120001" false
        ⟨["FARM"], [], true⟩ ⟨["FARM"], [], true⟩).decision
      = (process_barcode_locally "010125FARM120001" false
          ⟨["FARM"], [], true⟩).1 ∧
    (client_process_barcode NetBehavior.noConnect "010125FARM120001" false
        ⟨["FARM"], [], true⟩ ⟨["FARM"], [], true⟩).localStore
      = (process_barcode_locally "010125FARM120001" false
          ⟨["FARM"], [], true⟩).2 ∧
    (client_process_barcode NetBehavior.noConnect "010125FARM120001" false
        ⟨["FARM"], [], true⟩ ⟨["FARM"], [], true⟩).localRan = true ∧
    (NetBehavior.noConnect = NetBehavior.noConnect →
      (client_process_barcode NetBehavior.noConnect "010125FARM120001" false
          ⟨["FARM"], [], true⟩ ⟨["FARM"], [], true⟩).serverRan = false ∧
      (client_process_barcode NetBehavior.noConnect "010125FARM120001" false
          ⟨["FARM"], [], true⟩ ⟨["FARM"], [], true⟩).serverStore
        = ⟨["FARM"], [], true⟩) ∧
    (NetBehavior.noConnect = NetBehavior.failAfterProcessed →
      (client_process_barcode NetBehavior.noConnect "010125FARM120001" false
          ⟨["FARM"], [], true⟩ ⟨["FARM"], [], true⟩).serverRan = true ∧
      (client_process_barcode NetBehavior.noConnect "010125FARM120001" false
          ⟨["FARM"], [], true⟩ ⟨["FARM"], [], true⟩).serverStore
        = (process_barcode_locally "010125FARM120001" false
            ⟨["FARM"], [], true⟩).2) :=
  C5_fallback_transparency NetBehavior.noConnect "010125FARM120001" false
    ⟨["FARM"], [], true⟩ ⟨["FARM"], [], true⟩ (by decide)

/-- C5 counterexample to "a request is handled by exactly one path,
never both": when the reply is lost after the server processed the
request, the fallback runs too, and the same single-use code ends up
consumed (and granted) on both stores. -/
theorem C5_counterexample :
    (client_process_barcode NetBehavior.failAfterProcessed
        "010125MILL120007" false ⟨["MILL"], [], true⟩
        ⟨["MILL"], [], true⟩).localRan = true ∧
    (client_process_barcode NetBehavior.failAfterProcessed
        "010125MILL120007" false ⟨["MILL"], [], true⟩
        ⟨["MILL"], [], true⟩).serverRan = true ∧
    (⟨"MILL", "12", "010125", "0007"⟩ : Marker)
      ∈ (client_process_barcode NetBehavior.failAfterProcessed
          "010125MILL120007" false ⟨["MILL"], [], true⟩
          ⟨["MILL"], [], true⟩).localStore.markers ∧
    (⟨"MILL", "12", "010125", "0007"⟩ : Marker)
      ∈ (client_process_barcode NetBehavior.failAfterProcessed
          "010125MILL120007" false ⟨["MILL"], [], true⟩
          ⟨["MILL"], [], true⟩).serverStore.markers := by
  decide


/-! ### Override monitor lemmas -/

lemma override_run_append (s : OverrideState) (l1 l2 : List (Nat × Bool)) :
    override_run s (l1 ++ l2)
      = ((override_run s l1).1
           + (override_run (override_run s l1).2 l2).1,
         (override_run (override_run s l1).2 l2).2) := by
  induction l1 generalizing s with
  | nil => simp [override_run]
  | cons e rest ih => simp [override_run, ih, Nat.add_assoc]

lemma override_run_hold_wiped (t0 : Nat) (ts : List Nat) :
    override_run ⟨some t0, true⟩ (ts.map (fun t => (t, true)))
      = (0, ⟨some t0, true⟩) := by
  induction ts with
  | nil => simp [override_run]
  | cons t ts ih =>
      have hc : ¬ (10 ≤ t - t0 ∧ true = false) := fun h =>
        absurd h.2 (by decide)
      simp [override_run, override_step, hc, ih]

lemma override_run_hold_fresh (t0 : Nat) (ts : List Nat) :
    override_run ⟨some t0, false⟩ (ts.map (fun t => (t, true)))
      = (if ∃ t ∈ ts, 10 ≤ t - t0 then 1 else 0,
         ⟨some t0, decide (∃ t ∈ ts, 10 ≤ t - t0)⟩) := by
  induction ts with
  | nil => simp [override_run]
  | cons t ts ih =>
      by_cases ht : 10 ≤ t - t0
      · simp [override_run, override_step, ht, override_run_hold_wiped,
          List.exists_mem_cons_iff]
      · simp [override_run, override_step, ht, ih,
          List.exists_mem_cons_iff]

lemma override_run_block_init (w : Bool) (t1 : Nat) (rest : List Nat) :
    override_run ⟨none, w⟩ (pressedBlock (t1 :: rest))
      = (if ∃ t ∈ rest, 10 ≤ t - t1 then 1 else 0,
         ⟨some t1, decide (∃ t ∈ rest, 10 ≤ t - t1)⟩) := by
  unfold pressedBlock
  rw [List.map_cons]
  simp [override_run, override_step, Nat.sub_self, override_run_hold_fresh]

lemma override_run_release (s : OverrideState) (rt : Nat)
    (l : List (Nat × Bool)) :
    override_run s ((rt, false) :: l) = override_run ⟨none, s.wiped⟩ l := by
  simp [override_run, override_step]

/-- C6: the wipe fires exactly once per continuous hold.  Over a run that
holds the button through the sampled times `t1 :: r1`, releases at `rt`,
and holds again through `t2 :: r2`, the number of wipes is the sum, over
the two blocks, of one when some sample of the block lies at least 10
seconds after the block's first sample and zero otherwise: a sustained
12-second hold wipes exactly once no matter how long it continues,
releasing and re-holding for another 12 seconds wipes a second time, and
a hold shorter than 10 seconds does not wipe. -/
theorem C6_wipe_once_per_hold (t1 t2 rt : Nat) (r1 r2 : List Nat) :
    (override_run ⟨none, false⟩
        (pressedBlock (t1 :: r1) ++ (rt, false) :: pressedBlock (t2 :: r2))).1
      = (if ∃ t ∈ r1, 10 ≤ t - t1 then 1 else 0)
        + (if ∃ t ∈ r2, 10 ≤ t - t2 then 1 else 0) := by
  rw [override_run_append, override_run_block_init, override_run_release,
    override_run_block_init]

/-- C7: the wipe's frame condition.  `delete_database` keeps exactly the
direct entries that are allow-listed or whose deletion failed: every
allow-listed entry survives untouched (with its contents), every other
entry whose deletion succeeds is removed — directories (including
non-empty ones) and files alike — and a deletion failure on one entry
does not prevent the deletion of the remaining entries, as the filter
characterisation shows. -/
theorem C7_wipe_frame (root : List FsEntry) :
    delete_database root
      = root.filter (fun e => decide (e.name ∈ FILES_TO_KEEP)
          || ! e.deletable) ∧
    (∀ e, e ∈ root → e.name ∈ FILES_TO_KEEP → e ∈ delete_database root) ∧
    (∀ e, e ∈ root → e.name ∉ FILES_TO_KEEP → e.deletable = true →
      e ∉ delete_database root) := by
  have hfilter : ∀ (l : List FsEntry),
      delete_database l
        = l.filter (fun e => decide (e.name ∈ FILES_TO_KEEP)
            || ! e.deletable) := by
    intro l
    induction l with
    | nil => rfl
    | cons e rest ih =>
        by_cases hk : e.name ∈ FILES_TO_KEEP
        · simp [delete_database, List.filter_cons, hk, ih]
        · by_cases hd : e.deletable = true <;> by_cases hi : e.isDir = true <;>
            simp [delete_database, List.filter_cons, hk, hd, hi, ih]
  refine ⟨hfilter root, ?_, ?_⟩
  · intro e he hk
    rw [hfilter]
    exact List.mem_filter.mpr ⟨he, by simp [hk]⟩
  · intro e he hk hd
    rw [hfilter]
    intro hmem
    have hp := (List.mem_filter.mp hmem).2
    simp [hk, hd] at hp

/-- C7 witness: on a root holding the allow-listed "sounds" directory, a
non-empty site directory "FARM", and a file whose deletion fails, the
wipe keeps "sounds" intact and removes "FARM". -/
theorem C7_witness :
    (⟨"sounds", true, ["a.mp3"], true⟩ : FsEntry)
      ∈ delete_database
          [⟨"sounds", true, ["a.mp3"], true⟩, ⟨"FARM", true, ["12"], true⟩,
           ⟨"stuck.txt", false, [], false⟩] ∧
    (⟨"FARM", true, ["12"], true⟩ : FsEntry)
      ∉ delete_database
          [⟨"sounds", true, ["a.mp3"], true⟩, ⟨"FARM", true, ["12"], true⟩,
           ⟨"stuck.txt", false, [], false⟩] :=
  ⟨(C7_wipe_frame _).2.1 _ (by decide) (by decide),
   (C7_wipe_frame _).2.2 _ (by decide) (by decide) rfl⟩

/-! ### Server request handling lemmas -/

lemma splitColonAux_ne_nil (l : List Char) : ∀ acc, splitColonAux l acc ≠ [] := by
  induction l with
  | nil => intro acc; simp [splitColonAux]
  | cons c cs ih =>
      intro acc
      by_cases hc : c = ':' <;> simp [splitColonAux, hc, ih]

lemma splitColonAux_no_colon (l : List Char) : ∀ acc, ':' ∉ l →
    splitColonAux l acc = [String.mk (acc.reverse ++ l)] := by
  induction l with
  | nil => intro acc _; simp [splitColonAux]
  | cons c cs ih =>
      intro acc h
      have hc : ¬ (c = ':') := by
        intro he
        exact h (by rw [← he]; exact List.mem_cons_self c cs)
      rw [splitColonAux, if_neg hc,
        ih _ (fun hm => h (List.mem_cons_of_mem _ hm))]
      simp

lemma splitColonAux_with_colon (cs fs : List Char) : ∀ acc, ':' ∉ cs →
    splitColonAux (cs ++ ':' :: fs) acc
      = String.mk (acc.reverse ++ cs) :: splitColonAux fs [] := by
  induction cs with
  | nil => intro acc _; simp [splitColonAux]
  | cons c cs' ih =>
      intro acc h
      have hc : ¬ (c = ':') := by
        intro he
        exact h (by rw [← he]; exact List.mem_cons_self c cs')
      rw [List.cons_append, splitColonAux, if_neg hc,
        ih _ (fun hm => h (List.mem_cons_of_mem _ hm))]
      simp

lemma splitColon_pair (cs fs : List Char) (hcs : ':' ∉ cs) (hfs : ':' ∉ fs) :
    splitColon (String.mk (cs ++ ':' :: fs))
      = [String.mk cs, String.mk fs] := by
  show splitColonAux (cs ++ ':' :: fs) [] = _
  rw [splitColonAux_with_colon cs fs [] hcs, splitColonAux_no_colon fs [] hfs]
  simp

/-- C8 (amended): the server answers every well-formed validation request
"code:flag" with exactly "open" when the engine grants and "close" when
it denies; an empty request gets no reply; but a malformed non-empty,
non-sentinel request is not dropped — it is still fed to the engine (the
text before the first ':' as the code) and always receives a reply. -/
theorem C8_server_handle :
    (∀ st : Store, handle "" st = (none, st)) ∧
    (∀ (cs fs : List Char) (st : Store), ':' ∉ cs → ':' ∉ fs →
      handle (String.mk (cs ++ ':' :: fs)) st
        = (some (if (process_barcode_locally (String.mk cs)
              (decide (String.mk fs = "True")) st).1 then "open"
            else "close"),
           (process_barcode_locally (String.mk cs)
              (decide (String.mk fs = "True")) st).2)) ∧
    (∀ (msg : String) (st : Store), msg ≠ "" → msg ≠ "DELETE_DATABASE" →
      (handle msg st).1 ≠ none) := by
  refine ⟨?_, ?_, ?_⟩
  · intro st
    simp [handle]
  · intro cs fs st hcs hfs
    have hne1 : String.mk (cs ++ ':' :: fs) ≠ "" := by
      intro h
      have hd : cs ++ ':' :: fs = ([] : List Char) := congrArg String.data h
      simp at hd
    have hne2 : String.mk (cs ++ ':' :: fs) ≠ "DELETE_DATABASE" := by
      intro h
      have hd : cs ++ ':' :: fs = "DELETE_DATABASE".data :=
        congrArg String.data h
      have hcolon : ':' ∈ cs ++ ':' :: fs :=
        List.mem_append_right _ (List.mem_cons_self _ _)
      rw [hd] at hcolon
      exact absurd hcolon (by decide)
    unfold handle
    rw [if_neg hne1, if_neg hne2, splitColon_pair cs fs hcs hfs]
  · intro msg st hne1 hne2
    unfold handle
    rw [if_neg hne1, if_neg hne2]
    cases hsp : splitColon msg with
    | nil => exact absurd hsp (splitColonAux_ne_nil _ _)
    | cons b rest =>
        cases rest <;> simp

/-- C8 witness: a well-formed request for a fresh provisioned code with
the override flag "True" is answered per the engine. -/
theorem C8_witness :
    handle (String.mk ("010125FARM120001".data ++ ':' :: "True".data))
        ⟨["FARM"], [], true⟩
      = (some (if (process_barcode_locally (String.mk "010125FARM120001".data)
            (decide (String.mk "True".data = "True"))
            ⟨["FARM"], [], true⟩).1 then "open" else "close"),
         (process_barcode_locally (String.mk "010125FARM120001".data)
            (decide (String.mk "True".data = "True"))
            ⟨["FARM"], [], true⟩).2) :=
  C8_server_handle.2.1 "010125FARM120001".data "True".data
    ⟨["FARM"], [], true⟩ (by decide) (by decide)

/-- C8 counterexample to "malformed requests are answered with no reply":
the malformed request "hello" (no ':', not a code) is answered "close",
not dropped. -/
theorem C8_counterexample :
    handle "hello" ⟨[], [], true⟩ = (some "close", ⟨[], [], true⟩) := by
  decide

/-- C9: the 3-second abandonment rule is dead code for buffers of two or
more characters.  First conjunct: after digit '1' at t = 0 ms and digit
'2' at t = 100 ms, `scan_timeout_start` is `None` (the second key report
reset it and, the buffer being non-empty, it was not re-armed), so a read
timeout arriving 1000 seconds later still does not discard the buffer —
the pending scan is never abandoned, contradicting the claimed rule.
Second conjunct: the rule does work in the only case it can fire, a
single-character buffer, which is discarded by a timeout more than 3
seconds after that first character. -/
theorem C9_reader_timeout_dead_for_multichar :
    (reader_step ((reader_step ((reader_step
        ⟨[], none, none, 0⟩ (ReaderEvent.key 30 0)).1)
        (ReaderEvent.key 31 100)).1)
        (ReaderEvent.timeout 1000000)).1
      = ⟨['1', '2'], none, none, 0⟩ ∧
    (reader_step ((reader_step ⟨[], none, none, 0⟩
        (ReaderEvent.key 30 0)).1) (ReaderEvent.timeout 4000)).1
      = ⟨[], none, none, 0⟩ := by
  decide
